import Mathlib

/-!
Verification development for the moneturn catalog service (Fastify + Prisma).

The backend is shallowly embedded as pure Lean functions over an explicit
relational store.  Strings are lists of characters; JavaScript string
primitives (trim, toLowerCase, Number) are modelled on the ASCII fragment;
the exact decimal value of a parsed numeric string is kept as a pair
(mantissa, decimal exponent) meaning `m * 10 ^ e` (IEEE rounding of the
host language is abstracted to the exact value).  Prisma calls are modelled
by their documented semantics: `findUnique` returns the matching row or
nothing, `update`/`delete` fail with a record-not-found error when no row
matches, `create`/`update` of a book fail with a foreign-key error when the
referenced author id does not resolve, and an `undefined` member of an `OR`
filter list contributes no condition.  A store carries an optional injected
fault that makes every storage call fail, modelling an unclassified
storage-layer failure.
-/

namespace Moneturn

/-- Strings of the embedded programs, as lists of characters. -/
abbrev Str := List Char

/-- Code points treated as whitespace by the JavaScript `trim` model
(ASCII whitespace plus NBSP, LS, PS and the BOM). -/
def jsWsCodes : List Nat := [9, 10, 11, 12, 13, 32, 160, 8232, 8233, 65279]

/-- Whitespace test used by the `trim` model. -/
def jsIsWs (c : Char) : Bool := jsWsCodes.contains c.toNat

/-- Model of `String.prototype.trim`: drop whitespace from both ends. -/
def jsTrim (s : Str) : Str :=
  ((s.dropWhile jsIsWs).reverse.dropWhile jsIsWs).reverse

/-- Model of `toLowerCase` on one character (ASCII letters). -/
def lowerChar (c : Char) : Char :=
  if 65 ≤ c.toNat ∧ c.toNat ≤ 90 then Char.ofNat (c.toNat + 32) else c

/-- Model of `String.prototype.toLowerCase` (ASCII). -/
def jsLower (s : Str) : Str := s.map lowerChar

/-- `query.trim().toLowerCase()` — the normalisation in `SearchService.search`. -/
def normalize (q : Str) : Str := jsLower (jsTrim q)

/-- Does the first list occur at the head of the second one? -/
def leadsWith : Str → Str → Bool
  | [], _ => true
  | _ :: _, [] => false
  | c :: cs, h :: hs => c == h && leadsWith cs hs

/-- Substring containment: does `n` occur contiguously inside the second list?
Models both JavaScript `String.prototype.includes` and SQL `LIKE %n%`. -/
def occursIn (n : Str) : Str → Bool
  | [] => n.isEmpty
  | h :: hs => leadsWith n (h :: hs) || occursIn n hs

/-- Prisma `contains` with `mode: 'insensitive'`: case-insensitive substring. -/
def containsCI (field q : Str) : Bool := occursIn (jsLower q) (jsLower field)

/-! ### Model of JavaScript `Number(...)` on strings

`Number` trims its argument and then parses a decimal literal with optional
sign, fraction and exponent, or an unsigned hexadecimal / octal / binary
literal; anything else is NaN (`none` below).  The parsed value is returned
exactly as `(m, e)` meaning `m * 10 ^ e`.  (`"Infinity"` requires a capital
letter, and the search service only applies `Number` to lowercased strings,
so infinities never arise there.) -/

/-- The exact value of a parsed numeric string: `(m, e)` stands for `m * 10 ^ e`. -/
abbrev JsNum := Int × Int

/-- Decimal digit test. -/
def allDigits (l : Str) : Bool := l.all (fun c => 48 ≤ c.toNat && c.toNat ≤ 57)

/-- Value of a list of decimal digits. -/
def decVal (l : Str) : Nat := l.foldl (fun a c => a * 10 + (c.toNat - 48)) 0

/-- Split a list at the first character satisfying `p`, dropping that
character; `none` when no character satisfies `p`. -/
def splitAtFirst (p : Char → Bool) (l : Str) : Str × Option Str :=
  match l.span (fun c => !(p c)) with
  | (a, []) => (a, none)
  | (a, _ :: bs) => (a, some bs)

/-- Parse `digits [. digits]` (either side of the dot may be empty, not both). -/
def parseMantissa (l : Str) : Option JsNum :=
  match splitAtFirst (fun c => c == '.') l with
  | (ip, none) =>
      if !ip.isEmpty && allDigits ip then some ((decVal ip : Int), 0) else none
  | (ip, some fp) =>
      if !(ip.isEmpty && fp.isEmpty) && allDigits ip && allDigits fp then
        some ((decVal (ip ++ fp) : Int), -(fp.length : Int))
      else none

/-- Parse an exponent part: optional sign followed by digits. -/
def parseExp (l : Str) : Option Int :=
  match l with
  | '+' :: ds => if !ds.isEmpty && allDigits ds then some ((decVal ds : Int)) else none
  | '-' :: ds => if !ds.isEmpty && allDigits ds then some (-(decVal ds : Int)) else none
  | ds => if !ds.isEmpty && allDigits ds then some ((decVal ds : Int)) else none

/-- Parse a decimal literal `mantissa [e exponent]`. -/
def parseDec (l : Str) : Option JsNum :=
  match splitAtFirst (fun c => c == 'e' || c == 'E') l with
  | (m, none) => parseMantissa m
  | (m, some ex) =>
      match parseMantissa m, parseExp ex with
      | some (v, e0), some z => some (v, e0 + z)
      | _, _ => none

/-- Value of one digit in bases up to 16. -/
def hexDigitVal (c : Char) : Option Nat :=
  if 48 ≤ c.toNat && c.toNat ≤ 57 then some (c.toNat - 48)
  else if 97 ≤ c.toNat && c.toNat ≤ 102 then some (c.toNat - 87)
  else if 65 ≤ c.toNat && c.toNat ≤ 70 then some (c.toNat - 55)
  else none

/-- Value of a nonempty digit string in base `b`. -/
def baseVal (b : Nat) (ds : Str) : Option Nat :=
  ds.foldl (fun acc c =>
    match acc, hexDigitVal c with
    | some v, some d => if d < b then some (v * b + d) else none
    | _, _ => none) (some 0)

/-- Parse the digits after a `0x` / `0o` / `0b` marker. -/
def parseBase (b : Nat) (ds : Str) : Option JsNum :=
  if ds.isEmpty then none else (baseVal b ds).map (fun v => ((v : Int), 0))

/-- Parse an unsigned numeric literal (a sign is not allowed in front of the
hexadecimal / octal / binary forms). -/
def parseUnsigned (l : Str) : Option JsNum :=
  match l with
  | '0' :: 'x' :: ds => parseBase 16 ds
  | '0' :: 'X' :: ds => parseBase 16 ds
  | '0' :: 'o' :: ds => parseBase 8 ds
  | '0' :: 'O' :: ds => parseBase 8 ds
  | '0' :: 'b' :: ds => parseBase 2 ds
  | '0' :: 'B' :: ds => parseBase 2 ds
  | t => parseDec t

/-- Model of `Number(s)` for strings; `none` models NaN, the empty (or
all-whitespace) string converts to `0`. -/
def jsNumber (s : Str) : Option JsNum :=
  match jsTrim s with
  | [] => some (0, 0)
  | '+' :: r => parseDec r
  | '-' :: r => (parseDec r).map (fun p => (-p.1, p.2))
  | t => parseUnsigned t

/-- Does the parsed number `(m, e)` equal the integer `y`? -/
def jsNumEqInt (p : JsNum) (y : Int) : Bool :=
  if 0 ≤ p.2 then y == p.1 * (10 : Int) ^ p.2.toNat
  else y * (10 : Int) ^ (-p.2).toNat == p.1

/-- Is the parsed number `(m, e)` a whole number? -/
def jsNumIsWhole (p : JsNum) : Bool :=
  if 0 ≤ p.2 then true else p.1 % (10 : Int) ^ (-p.2).toNat == 0

/-! ### Data model (prisma/schema.prisma) -/

/-- Row of the `authors` table. -/
structure Author where
  id : Int
  name : Str
  createdAt : Nat
  updatedAt : Nat
deriving DecidableEq, Repr

/-- Row of the `books` table; `authorId` is a required foreign key. -/
structure Book where
  id : Int
  title : Str
  year : Int
  authorId : Int
  createdAt : Nat
  updatedAt : Nat
deriving DecidableEq, Repr

/-- The relational store behind the shared Prisma handle.  `fault` injects an
unclassified storage failure: when present, every storage call fails with it. -/
structure Store where
  authors : List Author
  books : List Book
  fault : Option Nat
deriving DecidableEq, Repr

/-- `prisma.author.findUnique` on the primary key. -/
def lookupAuthor (s : Store) (id : Int) : Option Author :=
  s.authors.find? (fun a => a.id == id)

/-- `prisma.book.findUnique` on the primary key. -/
def lookupBook (s : Store) (id : Int) : Option Book :=
  s.books.find? (fun b => b.id == id)

/-- The books related to one author (the `books` relation of the schema). -/
def booksOf (s : Store) (aid : Int) : List Book :=
  s.books.filter (fun b => b.authorId == aid)

/-- Autoincremented id for a new author row. -/
def nextAuthorId (s : Store) : Int := (s.authors.map Author.id).foldl max 0 + 1

/-- Autoincremented id for a new book row. -/
def nextBookId (s : Store) : Int := (s.books.map Book.id).foldl max 0 + 1

/-- Errors crossing the service boundary: the two classified Prisma failures,
an injected unclassified storage failure, and a service-thrown `Error(msg)`. -/
inductive AppErr where
  | prismaNotFound
  | prismaFK
  | storageFault (f : Nat)
  | svcMsg (msg : Str)
deriving DecidableEq, Repr

/-- The `message` carried by each error (route handlers match on it). -/
def AppErr.message : AppErr → Str
  | .prismaNotFound => "Record to update or delete does not exist.".data
  | .prismaFK => "Foreign key constraint failed on the field: books_authorId_fkey".data
  | .storageFault _ => "Unclassified storage failure".data
  | .svcMsg m => m

/-- Message thrown by `AuthorService.delete` when no author row matches. -/
def msgAuthorNotFound : Str := "Author not found".data

/-- Message thrown by `AuthorService.delete` when the author still has books. -/
def msgCannotDelete : Str :=
  "Cannot delete author with books. Delete the books first.".data

/-- The substring the DELETE route handler looks for in the error message. -/
def msgNeedle : Str := "Cannot delete author with books".data

/-! ### AuthorService (src/modules/author/author-service.ts) -/

/-- `findAll`: every author, each with `_count.books`. -/
def AuthorService.findAll (s : Store) : Except AppErr (List (Author × Nat)) :=
  match s.fault with
  | some f => .error (.storageFault f)
  | none => .ok (s.authors.map (fun a => (a, (booksOf s a.id).length)))

/-- `findById`: the author with its list of books, or nothing. -/
def AuthorService.findById (s : Store) (id : Int) :
    Except AppErr (Option (Author × List Book)) :=
  match s.fault with
  | some f => .error (.storageFault f)
  | none => .ok ((lookupAuthor s id).map (fun a => (a, booksOf s id)))

/-- `create`: insert a new author row (`now` is the storage clock). -/
def AuthorService.create (s : Store) (name : Str) (now : Nat) :
    Except AppErr (Author × Store) :=
  match s.fault with
  | some f => .error (.storageFault f)
  | none =>
    let a : Author := ⟨nextAuthorId s, name, now, now⟩
    .ok (a, ⟨s.authors ++ [a], s.books, s.fault⟩)

/-- `update`: `prisma.author.update` fails with a record-not-found error when
no row matches; any other storage failure propagates unchanged. -/
def AuthorService.update (s : Store) (id : Int) (name : Str) (now : Nat) :
    Except AppErr (Author × Store) :=
  match s.fault with
  | some f => .error (.storageFault f)
  | none =>
    match lookupAuthor s id with
    | none => .error .prismaNotFound
    | some a =>
      let a2 : Author := ⟨a.id, name, a.createdAt, now⟩
      .ok (a2, ⟨s.authors.map (fun x => if x.id == id then a2 else x), s.books, s.fault⟩)

/-- `delete`: fetch the author with its book ids; throw `Error('Author not
found')` when no row matches; throw `Error('Cannot delete author with books.
Delete the books first.')` when it has at least one book; otherwise delete. -/
def AuthorService.delete (s : Store) (id : Int) : Except AppErr (Author × Store) :=
  match s.fault with
  | some f => .error (.storageFault f)
  | none =>
    match lookupAuthor s id with
    | none => .error (.svcMsg msgAuthorNotFound)
    | some a =>
      if (booksOf s id).length > 0 then .error (.svcMsg msgCannotDelete)
      else .ok (a, ⟨s.authors.filter (fun x => x.id != id), s.books, s.fault⟩)

/-! ### Author routes (src/modules/author/author-routes.ts) -/

/-- DELETE `/api/authors/:id`: 200 on success; otherwise 400 when the error
message contains `'Cannot delete author with books'`, 404 for anything else.
The pair is (HTTP status, store after the request). -/
def authorDeleteRoute (s : Store) (id : Int) : Nat × Store :=
  match AuthorService.delete s id with
  | .ok (_, s2) => (200, s2)
  | .error e => if occursIn msgNeedle e.message then (400, s) else (404, s)

/-- POST `/api/authors`: no try/catch — a failing storage call propagates out
of the handler uncaught (as `.error`). -/
def authorCreateRoute (s : Store) (name : Str) (now : Nat) :
    Except AppErr (Nat × (Author × Store)) :=
  match AuthorService.create s name now with
  | .ok (a, s2) => .ok (201, (a, s2))
  | .error e => .error e

/-- Fastify's default error handler: an error escaping a handler becomes a
generic 500 response. -/
def fastifyStatus {α : Type} (r : Except AppErr (Nat × α)) : Nat :=
  match r with
  | .ok (st, _) => st
  | .error _ => 500

/-! ### BookService (src/modules/book/book-service.ts) -/

/-- Partial update payload for PUT `/api/books/:id`. -/
structure BookPatch where
  title : Option Str
  authorId : Option Int
  year : Option Int
deriving DecidableEq, Repr

/-- `create`: `prisma.book.create` fails with a foreign-key error when
`authorId` does not resolve to an existing author; no row is written then. -/
def BookService.create (s : Store) (title : Str) (authorId : Int) (year : Int)
    (now : Nat) : Except AppErr (Book × Store) :=
  match s.fault with
  | some f => .error (.storageFault f)
  | none =>
    match lookupAuthor s authorId with
    | none => .error .prismaFK
    | some _ =>
      let b : Book := ⟨nextBookId s, title, year, authorId, now, now⟩
      .ok (b, ⟨s.authors, s.books ++ [b], s.fault⟩)

/-- `update`: only the supplied fields change, `updatedAt` is refreshed; a
missing row gives a record-not-found error, a supplied dangling `authorId` a
foreign-key error. -/
def BookService.update (s : Store) (id : Int) (p : BookPatch) (now : Nat) :
    Except AppErr (Book × Store) :=
  match s.fault with
  | some f => .error (.storageFault f)
  | none =>
    match lookupBook s id with
    | none => .error .prismaNotFound
    | some b =>
      let fkOk : Bool :=
        match p.authorId with
        | some aid => (lookupAuthor s aid).isSome
        | none => true
      if fkOk then
        let b2 : Book := ⟨b.id, p.title.getD b.title, p.year.getD b.year,
          p.authorId.getD b.authorId, b.createdAt, now⟩
        .ok (b2, ⟨s.authors, s.books.map (fun x => if x.id == id then b2 else x), s.fault⟩)
      else .error .prismaFK

/-! ### Book routes (src/modules/book/book-routes.ts) -/

/-- POST `/api/books`: the handler wraps the service call in a try/catch and
maps every failure to a 400 response (`'Failed to create book. Author might
not exist.'`). The pair is (HTTP status, store after the request). -/
def bookCreateRoute (s : Store) (title : Str) (authorId : Int) (year : Int)
    (now : Nat) : Nat × Store :=
  match BookService.create s title authorId year now with
  | .ok (_, s2) => (201, s2)
  | .error _ => (400, s)

/-! ### SearchService (src/modules/search/search-service.ts) -/

/-- The value placed in the `year` member of the books `OR` filter:
`isNaN(Number(q)) ? undefined : Number(q)`; `none` models `undefined`. -/
def yearDisjunct (nq : Str) : Option JsNum :=
  match jsNumber nq with
  | none => none
  | some p => some p

/-- The three-clause disjunctive book filter: title contains the query, or
the year equals the parsed query (when that `OR` member is present), or the
joined author's name contains the query. -/
def bookMatches (s : Store) (nq : Str) (b : Book) : Bool :=
  containsCI b.title nq
  || (match yearDisjunct nq with
      | none => false
      | some p => jsNumEqInt p b.year)
  || (match lookupAuthor s b.authorId with
      | none => false
      | some a => containsCI a.name nq)

/-- The book filter with the year member absent (used to state that the year
clause contributes nothing on non-numeric queries). -/
def titleOrAuthorMatches (s : Store) (nq : Str) (b : Book) : Bool :=
  containsCI b.title nq
  || (match lookupAuthor s b.authorId with
      | none => false
      | some a => containsCI a.name nq)

/-- The `{books, authors}` structure returned by the search service. -/
structure SearchResults where
  books : List Book
  authors : List Author
deriving DecidableEq, Repr

/-- `search(query)` together with the number of store (findMany) calls it
performs.  An empty normalised query returns immediately — even a faulty
store is never touched then. -/
def SearchService.search (s : Store) (q : Str) :
    Except AppErr (SearchResults × Nat) :=
  let nq := normalize q
  if nq.isEmpty then .ok (⟨[], []⟩, 0)
  else
    match s.fault with
    | some f => .error (.storageFault f)
    | none =>
      .ok (⟨s.books.filter (bookMatches s nq),
            s.authors.filter (fun a => containsCI a.name nq)⟩, 2)

/-! ### Serialized author list response (authorResponseSchema) -/

/-- Scalar JSON values appearing in the serialized author list. -/
inductive JVal where
  | jnum (n : Int)
  | jstr (s : Str)
deriving DecidableEq, Repr

/-- Rendering of a stored timestamp as a date-time string (injective model of
ISO-8601 rendering). -/
def dateToJson (t : Nat) : Str := (Nat.repr t).data

/-- Fastify serialization of one element of the GET `/api/authors` response:
`authorResponseSchema` declares exactly `id`, `name`, `createdAt`,
`updatedAt`, and the schema-based serializer emits only declared
properties — anything else on the object is omitted. -/
def serializeAuthorItem (a : Author) : List (Str × JVal) :=
  [("id".data, .jnum a.id),
   ("name".data, .jstr a.name),
   ("createdAt".data, .jstr (dateToJson a.createdAt)),
   ("updatedAt".data, .jstr (dateToJson a.updatedAt))]

/-- GET `/api/authors`: the service result serialized through
`authorResponseSchema` (the `_count` annotation is not among the declared
properties, so it is dropped). -/
def listAuthorsRoute (s : Store) : Except AppErr (List (List (Str × JVal))) :=
  match AuthorService.findAll s with
  | .ok rows => .ok (rows.map (fun r => serializeAuthorItem r.1))
  | .error e => .error e

/-- Does a serialized object carry some field whose value is the number `n`?
(The most liberal reading of "annotated with the book count".) -/
def annotatesCount (item : List (Str × JVal)) (n : Nat) : Prop :=
  ∃ p, p ∈ item ∧ p.2 = JVal.jnum (n : Int)

instance (item : List (Str × JVal)) (n : Nat) : Decidable (annotatesCount item n) := by
  unfold annotatesCount
  exact List.decidableBEx _ item

/-! ### Concrete instances used by witnesses and counterexamples -/

/-- An author with one book (C1 witness). -/
def aW1 : Author := ⟨1, "ada".data, 0, 0⟩

/-- The book of `aW1` (C1 witness). -/
def bW1 : Book := ⟨1, "x".data, 2000, 1, 0, 0⟩

/-- Store for the C1 witness: one author with one book. -/
def sW1 : Store := ⟨[aW1], [bW1], none⟩

/-- A book published in 2023 (C2 witness). -/
def bW2 : Book := ⟨1, "dune".data, 2023, 1, 0, 0⟩

/-- Store for the C2 witness. -/
def sW2 : Store := ⟨[⟨1, "ada".data, 0, 0⟩], [bW2], none⟩

/-- Store for the C3 witness: nonempty contents and an injected fault — the
empty-query path returns without ever touching it. -/
def sW3 : Store := ⟨[⟨1, "ada".data, 0, 0⟩], [⟨1, "x".data, 2000, 1, 0, 0⟩], some 3⟩

/-- Store for the C4 counterexample: a valid author, plus an injected
unclassified storage fault. -/
def sW4 : Store := ⟨[⟨1, "ada".data, 0, 0⟩], [], some 7⟩

/-- Store for the C4 witness: an empty store (every author id dangles). -/
def sW4b : Store := ⟨[], [], none⟩

/-- Author with two books (C6). -/
def aW6 : Author := ⟨1, "ada".data, 5, 6⟩

/-- Store for C6: one author with two books. -/
def sW6 : Store := ⟨[aW6], [⟨1, "x".data, 2000, 1, 0, 0⟩, ⟨2, "y".data, 2001, 1, 0, 0⟩], none⟩

/-- Book for the C7 witness. -/
def bW7 : Book := ⟨1, "x".data, 2000, 1, 10, 10⟩

/-- Store for the C7 witness. -/
def sW7 : Store := ⟨[⟨1, "ada".data, 0, 0⟩], [bW7], none⟩

/-- Author for the C9 witness. -/
def aW9 : Author := ⟨1, "ada".data, 0, 0⟩

/-- Book of `aW9` whose title does not contain the query (C9 witness). -/
def bW9 : Book := ⟨1, "dune".data, 2000, 1, 0, 0⟩

/-- Store for the C9 witness. -/
def sW9 : Store := ⟨[aW9], [bW9], none⟩

/-- Search result of the C9 witness query. -/
def resW9 : SearchResults := ⟨[bW9], [aW9]⟩

/-- Store for the C10 witness: an injected unclassified storage fault. -/
def sW10 : Store := ⟨[⟨1, "ada".data, 0, 0⟩], [], some 9⟩

/-! ### Character and list lemmas for query normalisation -/

theorem toNat_ofNat_valid (n : Nat) (h : n < 55296) : (Char.ofNat n).toNat = n := by
  have hv : n.isValidChar := Or.inl h
  rw [Char.ofNat, dif_pos hv]
  simp [Char.ofNatAux, Char.toNat, UInt32.toNat]

theorem lowerChar_toNat (c : Char) :
    (lowerChar c).toNat = if 65 ≤ c.toNat ∧ c.toNat ≤ 90 then c.toNat + 32 else c.toNat := by
  unfold lowerChar
  split_ifs with h
  · exact toNat_ofNat_valid _ (by omega)
  · rfl

theorem jsIsWs_lowerChar (c : Char) : jsIsWs (lowerChar c) = jsIsWs c := by
  unfold jsIsWs
  rw [lowerChar_toNat]
  split_ifs with h
  · have h1 : jsWsCodes.contains (c.toNat + 32) = false := by
      simp [jsWsCodes]
      omega
    have h2 : jsWsCodes.contains c.toNat = false := by
      simp [jsWsCodes]
      omega
    rw [h1, h2]
  · rfl

theorem lowerChar_eq_self (c : Char) (h : ¬(65 ≤ c.toNat ∧ c.toNat ≤ 90)) :
    lowerChar c = c := by
  unfold lowerChar
  rw [if_neg h]

theorem lowerChar_lowerChar (c : Char) : lowerChar (lowerChar c) = lowerChar c := by
  apply lowerChar_eq_self
  rw [lowerChar_toNat]
  split_ifs with h <;> omega

theorem jsLower_jsLower (s : Str) : jsLower (jsLower s) = jsLower s := by
  unfold jsLower
  rw [List.map_map]
  apply List.map_congr_left
  intro a _
  exact lowerChar_lowerChar a

theorem dropWhile_dropWhile {α : Type} (p : α → Bool) (l : List α) :
    (l.dropWhile p).dropWhile p = l.dropWhile p := by
  induction l with
  | nil => rfl
  | cons a t ih =>
    rw [List.dropWhile_cons]
    split_ifs with h
    · exact ih
    · rw [List.dropWhile_cons, if_neg h]

theorem prefix_dropWhile_eq_self {α : Type} (p : α → Bool) {u v : List α}
    (hp : v <+: u) (hu : u.dropWhile p = u) : v.dropWhile p = v := by
  match v, hp with
  | [], _ => rfl
  | a :: t, ⟨w, hw⟩ =>
    rw [← hw] at hu
    have ha : p a = false := by
      by_contra hc
      have hc' : p a = true := by revert hc; cases p a <;> simp
      rw [List.cons_append, List.dropWhile_cons, if_pos hc'] at hu
      have hlen := (List.dropWhile_suffix (l := t ++ w) p).length_le
      have hb : (t ++ w).length = t.length + w.length := List.length_append t w
      have := congrArg List.length hu
      simp at this
      omega
    rw [List.dropWhile_cons, if_neg (by simp [ha])]

theorem jsTrim_idem (s : Str) : jsTrim (jsTrim s) = jsTrim s := by
  unfold jsTrim
  have hDu : (s.dropWhile jsIsWs).dropWhile jsIsWs = s.dropWhile jsIsWs :=
    dropWhile_dropWhile jsIsWs s
  have hvu : (((s.dropWhile jsIsWs).reverse.dropWhile jsIsWs).reverse) <+: s.dropWhile jsIsWs := by
    apply List.reverse_suffix.mp
    rw [List.reverse_reverse]
    exact List.dropWhile_suffix jsIsWs
  have hDv := prefix_dropWhile_eq_self jsIsWs hvu hDu
  rw [hDv, List.reverse_reverse, dropWhile_dropWhile]

theorem jsTrim_jsLower (s : Str) : jsTrim (jsLower s) = jsLower (jsTrim s) := by
  have hfun : (jsIsWs ∘ lowerChar) = jsIsWs := funext jsIsWs_lowerChar
  unfold jsTrim jsLower
  rw [List.dropWhile_map, hfun, ← List.map_reverse, List.dropWhile_map, hfun,
    ← List.map_reverse]

theorem normalize_normalize (q : Str) : normalize (normalize q) = normalize q := by
  unfold normalize
  rw [jsTrim_jsLower, jsTrim_idem, jsLower_jsLower]

/-! ### Claim theorems -/

/-- C8: search results are invariant under leading/trailing whitespace and
letter case of the query: for every query `q` and store `s`, `search` on `q`
returns exactly what it returns on the trimmed, lowercased form of `q`,
because the service normalises the query once before building both store
queries. -/
theorem search_query_normalization_invariant (s : Store) (q : Str) :
    SearchService.search s q = SearchService.search s (normalize q) := by
  simp only [SearchService.search, normalize_normalize]

/-- C3: for every query whose trimmed, case-folded form is empty, `search`
returns `{books: [], authors: []}` immediately with zero store accesses,
regardless of store contents (even an injected storage fault is never hit). -/
theorem search_empty_query_no_store_access (s : Store) (q : Str)
    (h : normalize q = []) :
    SearchService.search s q = .ok (⟨[], []⟩, 0) := by
  simp [SearchService.search, h]

/-- Witness for C3 at the all-whitespace query and a faulty, nonempty store. -/
theorem search_empty_query_no_store_access_witness :
    normalize "   ".data = [] ∧
    SearchService.search sW3 ("   ".data) = .ok (⟨[], []⟩, 0) :=
  ⟨by decide, search_empty_query_no_store_access sW3 ("   ".data) (by decide)⟩

/-- C5: `AuthorService.update` signals the record-not-found error exactly
when the store is healthy and no author row matches the id; an unrelated
storage failure is propagated unchanged, never converted into "not found". -/
theorem authorUpdate_notFound_exactly (s : Store) (id : Int) (name : Str) (now : Nat) :
    (AuthorService.update s id name now = .error .prismaNotFound
      ↔ s.fault = none ∧ lookupAuthor s id = none) ∧
    (∀ f, s.fault = some f →
      AuthorService.update s id name now = .error (.storageFault f)) := by
  constructor
  · constructor
    · intro h
      cases hf : s.fault with
      | some f => simp [AuthorService.update, hf] at h
      | none =>
        cases hl : lookupAuthor s id with
        | none => exact ⟨rfl, rfl⟩
        | some a => simp [AuthorService.update, hf, hl] at h
    · rintro ⟨hf, hl⟩
      simp [AuthorService.update, hf, hl]
  · intro f hf
    simp [AuthorService.update, hf]

/-- Witness for C5: a missing id gives not-found on a healthy empty store,
and an injected fault is propagated unchanged on a faulty one. -/
theorem authorUpdate_notFound_exactly_witness :
    AuthorService.update ⟨[], [], none⟩ 5 ("x".data) 3 = .error .prismaNotFound ∧
    AuthorService.update ⟨[], [], some 7⟩ 5 ("x".data) 3 = .error (.storageFault 7) :=
  ⟨(authorUpdate_notFound_exactly ⟨[], [], none⟩ 5 ("x".data) 3).1.mpr ⟨rfl, rfl⟩,
   (authorUpdate_notFound_exactly ⟨[], [], some 7⟩ 5 ("x".data) 3).2 7 rfl⟩

/-- C7: updating an existing book with only a year leaves `title` and
`authorId` (and `createdAt`) unchanged, sets the supplied year, and refreshes
`updatedAt` to a value different from the old one. -/
theorem bookUpdate_year_only_frame (s : Store) (b : Book) (y : Int) (now : Nat)
    (hf : s.fault = none) (hb : lookupBook s b.id = some b) (ht : b.updatedAt < now) :
    BookService.update s b.id ⟨none, none, some y⟩ now =
      .ok (⟨b.id, b.title, y, b.authorId, b.createdAt, now⟩,
        ⟨s.authors,
         s.books.map (fun x =>
           if x.id == b.id then ⟨b.id, b.title, y, b.authorId, b.createdAt, now⟩ else x),
         s.fault⟩) ∧
    now ≠ b.updatedAt := by
  constructor
  · simp [BookService.update, hf, hb]
  · omega

/-- Witness for C7 at a concrete store and book. -/
theorem bookUpdate_year_only_frame_witness :
    BookService.update sW7 1 ⟨none, none, some 1999⟩ 42 =
      .ok (⟨1, "x".data, 1999, 1, 10, 42⟩,
        ⟨sW7.authors, [⟨1, "x".data, 1999, 1, 10, 42⟩], sW7.fault⟩) ∧
    (42 : Nat) ≠ bW7.updatedAt :=
  ⟨((bookUpdate_year_only_frame sW7 bW7 1999 42 rfl (by decide) (by decide)).1),
   ((bookUpdate_year_only_frame sW7 bW7 1999 42 rfl (by decide) (by decide)).2)⟩

/-- C10: author creation has no error-classification branch — a storage
failure during POST `/api/authors` propagates out of the handler uncaught and
surfaces as a generic 500, unlike book creation where every failure is caught
and mapped to a 400 response. -/
theorem authorCreate_uncaught_propagates (s : Store) (name title : Str)
    (aid year : Int) (now : Nat) (f : Nat) (hf : s.fault = some f) :
    authorCreateRoute s name now = .error (.storageFault f) ∧
    fastifyStatus (authorCreateRoute s name now) = 500 ∧
    bookCreateRoute s title aid year now = (400, s) := by
  have h1 : authorCreateRoute s name now = .error (.storageFault f) := by
    simp [authorCreateRoute, AuthorService.create, hf]
  refine ⟨h1, ?_, ?_⟩
  · rw [h1]
    rfl
  · simp [bookCreateRoute, BookService.create, hf]

/-- Witness for C10 on a concrete faulty store. -/
theorem authorCreate_uncaught_propagates_witness :
    authorCreateRoute sW10 ("ada".data) 1 = .error (.storageFault 9) ∧
    fastifyStatus (authorCreateRoute sW10 ("ada".data) 1) = 500 ∧
    bookCreateRoute sW10 ("x".data) 1 2000 1 = (400, sW10) :=
  authorCreate_uncaught_propagates sW10 ("ada".data) ("x".data) 1 2000 1 9 rfl

/-- C1: author deletion follows the three-outcome protocol on a healthy
store: no matching row — the "not found" error and a 404; at least one
book — the "has dependents" error, a 400 distinguishable from 404, no
delete issued and the author still retrievable from the resulting store;
zero books — the row is deleted. -/
theorem authorDelete_three_outcomes (s : Store) (id : Int) (hf : s.fault = none) :
    (lookupAuthor s id = none →
      AuthorService.delete s id = .error (.svcMsg msgAuthorNotFound) ∧
      authorDeleteRoute s id = (404, s)) ∧
    (∀ a, lookupAuthor s id = some a → (booksOf s id).length > 0 →
      AuthorService.delete s id = .error (.svcMsg msgCannotDelete) ∧
      authorDeleteRoute s id = (400, s) ∧
      AuthorService.findById (authorDeleteRoute s id).2 id = .ok (some (a, booksOf s id))) ∧
    (∀ a, lookupAuthor s id = some a → (booksOf s id).length = 0 →
      AuthorService.delete s id =
        .ok (a, ⟨s.authors.filter (fun x => x.id != id), s.books, s.fault⟩) ∧
      authorDeleteRoute s id =
        (200, ⟨s.authors.filter (fun x => x.id != id), s.books, s.fault⟩)) := by
  refine ⟨?_, ?_, ?_⟩
  · intro h
    have hd : AuthorService.delete s id = .error (.svcMsg msgAuthorNotFound) := by
      simp [AuthorService.delete, hf, h]
    have hocc : occursIn msgNeedle msgAuthorNotFound = false := by decide
    exact ⟨hd, by simp [authorDeleteRoute, hd, AppErr.message, hocc]⟩
  · intro a ha hb
    have hd : AuthorService.delete s id = .error (.svcMsg msgCannotDelete) := by
      simp [AuthorService.delete, hf, ha, hb]
    have hocc : occursIn msgNeedle msgCannotDelete = true := by decide
    have hroute : authorDeleteRoute s id = (400, s) := by
      simp [authorDeleteRoute, hd, AppErr.message, hocc]
    refine ⟨hd, hroute, ?_⟩
    rw [hroute]
    simp [AuthorService.findById, hf, ha]
  · intro a ha hb
    have hd : AuthorService.delete s id =
        .ok (a, ⟨s.authors.filter (fun x => x.id != id), s.books, s.fault⟩) := by
      simp [AuthorService.delete, hf, ha, hb]
    exact ⟨hd, by simp [authorDeleteRoute, hd]⟩

/-- Witness for C1 in the "has dependents" case: the delete is refused with
a 400, and the author is still retrievable afterwards. -/
theorem authorDelete_three_outcomes_witness :
    AuthorService.delete sW1 1 = .error (.svcMsg msgCannotDelete) ∧
    authorDeleteRoute sW1 1 = (400, sW1) ∧
    AuthorService.findById (authorDeleteRoute sW1 1).2 1 = .ok (some (aW1, booksOf sW1 1)) :=
  (authorDelete_three_outcomes sW1 1 rfl).2.1 aW1 (by decide) (by decide)

/-- C4 counterexample: an unclassified storage failure during book creation
is caught by the route's indiscriminate catch and answered with 400, not
propagated as a generic 500. -/
theorem bookCreate_unclassified_maps_400 :
    BookService.create sW4 ("x".data) 1 2000 9 = .error (.storageFault 7) ∧
    bookCreateRoute sW4 ("x".data) 1 2000 9 = (400, sW4) ∧
    (400 : Nat) ≠ 500 := by
  refine ⟨by rfl, by rfl, by decide⟩

/-- C4 amended: a dangling `authorId` surfaces as a foreign-key failure and
the route answers 400 with no row created; but every other failure of the
create call — including an unclassified storage failure — is caught by the
same handler and also answered 400 with the store unchanged; the route does
not distinguish the two. -/
theorem bookCreate_failure_mapping (s : Store) (title : Str) (aid year : Int) (now : Nat) :
    (s.fault = none → lookupAuthor s aid = none →
      BookService.create s title aid year now = .error .prismaFK ∧
      bookCreateRoute s title aid year now = (400, s)) ∧
    (∀ f, s.fault = some f →
      BookService.create s title aid year now = .error (.storageFault f) ∧
      bookCreateRoute s title aid year now = (400, s)) ∧
    (∀ e, BookService.create s title aid year now = .error e →
      bookCreateRoute s title aid year now = (400, s)) := by
  refine ⟨?_, ?_, ?_⟩
  · intro hf hl
    have h1 : BookService.create s title aid year now = .error .prismaFK := by
      simp [BookService.create, hf, hl]
    exact ⟨h1, by simp [bookCreateRoute, h1]⟩
  · intro f hf
    have h1 : BookService.create s title aid year now = .error (.storageFault f) := by
      simp [BookService.create, hf]
    exact ⟨h1, by simp [bookCreateRoute, h1]⟩
  · intro e he
    simp [bookCreateRoute, he]

/-- Witness for C4 (amended) in the foreign-key case on an empty store. -/
theorem bookCreate_failure_mapping_witness :
    BookService.create sW4b ("x".data) 1 2000 9 = .error .prismaFK ∧
    bookCreateRoute sW4b ("x".data) 1 2000 9 = (400, sW4b) :=
  (bookCreate_failure_mapping sW4b ("x".data) 1 2000 9).1 rfl rfl

/-- Claim C2's notion "the trimmed query parses as a whole number". -/
def queryIsWholeNumeric (q : Str) : Bool :=
  match jsNumber (normalize q) with
  | some p => jsNumIsWhole p
  | none => false

/-- C2 counterexample: the query "12.5" engages the numeric-year member of
the filter (Number gives 12.5, not NaN) although it does not parse as a
whole number, so "engaged iff the query parses as a whole number" fails. -/
theorem searchYear_engaged_nonwhole_query :
    (yearDisjunct (normalize ("12.5".data))).isSome = true ∧
    queryIsWholeNumeric ("12.5".data) = false := by
  refine ⟨by rfl, by rfl⟩

/-- A parsed number that is not whole never equals any integer. -/
theorem jsNumEqInt_false_of_not_whole (p : JsNum) (h : jsNumIsWhole p = false) (y : Int) :
    jsNumEqInt p y = false := by
  by_cases h2 : 0 ≤ p.2
  · exfalso
    unfold jsNumIsWhole at h
    rw [if_pos h2] at h
    exact absurd h (by simp)
  · unfold jsNumIsWhole at h
    rw [if_neg h2] at h
    unfold jsNumEqInt
    rw [if_neg h2]
    rw [beq_eq_false_iff_ne] at h
    rw [beq_eq_false_iff_ne]
    intro hEq
    apply h
    rw [← hEq]
    exact Int.mul_emod_left y _

/-- C2 amended: the numeric-year member is engaged exactly when `Number` on
the normalised query is not NaN; a non-numeric query triggers no year
comparison and no coercion to a sentinel; a numeric but non-whole query
engages the comparison yet can match no book (years are integers); a query
parsing to a whole number additionally matches every book with that year. -/
theorem search_numeric_year_semantics (s : Store) (q : Str) (b : Book) :
    (jsNumber (normalize q) = none →
      bookMatches s (normalize q) b = titleOrAuthorMatches s (normalize q) b) ∧
    (∀ p, jsNumber (normalize q) = some p → jsNumIsWhole p = false →
      bookMatches s (normalize q) b = titleOrAuthorMatches s (normalize q) b) ∧
    (∀ p, jsNumber (normalize q) = some p → jsNumEqInt p b.year = true →
      s.fault = none → (normalize q).isEmpty = false → b ∈ s.books →
      SearchService.search s q =
        .ok (⟨s.books.filter (bookMatches s (normalize q)),
              s.authors.filter (fun a => containsCI a.name (normalize q))⟩, 2) ∧
      b ∈ s.books.filter (bookMatches s (normalize q))) := by
  refine ⟨?_, ?_, ?_⟩
  · intro h
    simp [bookMatches, titleOrAuthorMatches, yearDisjunct, h]
  · intro p hp hw
    have hz := jsNumEqInt_false_of_not_whole p hw b.year
    simp [bookMatches, titleOrAuthorMatches, yearDisjunct, hp, hz]
  · intro p hp hy hf hne hb
    constructor
    · simp [SearchService.search, hne, hf]
    · apply List.mem_filter.mpr
      refine ⟨hb, ?_⟩
      simp [bookMatches, yearDisjunct, hp, hy]

/-- Witness for C2 (amended): searching "2023" returns the book published in
2023 although neither its title nor its author's name contains "2023". -/
theorem search_numeric_year_semantics_witness :
    SearchService.search sW2 ("2023".data) =
      .ok (⟨sW2.books.filter (bookMatches sW2 (normalize ("2023".data))),
            sW2.authors.filter (fun a => containsCI a.name (normalize ("2023".data)))⟩, 2) ∧
    bW2 ∈ sW2.books.filter (bookMatches sW2 (normalize ("2023".data))) :=
  (search_numeric_year_semantics sW2 ("2023".data) bW2).2.2 (2023, 0)
    (by rfl) (by rfl) rfl (by rfl) (by decide)

/-- C6 counterexample: the author of `sW6` has two books, yet the array
delivered by GET `/api/authors` carries no field holding that count. -/
theorem listAuthors_delivered_without_count :
    (booksOf sW6 1).length = 2 ∧
    listAuthorsRoute sW6 = .ok [serializeAuthorItem aW6] ∧
    ¬ annotatesCount (serializeAuthorItem aW6) 2 := by
  refine ⟨by rfl, by rfl, by decide⟩

/-- C6 amended: the list-authors service fetches every author annotated with
its current book count, but the route's response schema declares only `id`,
`name`, `createdAt`, `updatedAt`, so the serializer strips the annotation —
the delivered array contains every author without any book count. -/
theorem listAuthors_count_stripped_by_schema (s : Store) (hf : s.fault = none) :
    AuthorService.findAll s = .ok (s.authors.map (fun a => (a, (booksOf s a.id).length))) ∧
    listAuthorsRoute s = .ok (s.authors.map serializeAuthorItem) ∧
    (∀ a, a ∈ s.authors →
      (serializeAuthorItem a).map Prod.fst =
        ["id".data, "name".data, "createdAt".data, "updatedAt".data]) := by
  refine ⟨?_, ?_, ?_⟩
  · simp [AuthorService.findAll, hf]
  · simp [listAuthorsRoute, AuthorService.findAll, hf, List.map_map, Function.comp]
  · intro a _
    rfl

/-- Witness for C6 (amended) on the two-book store. -/
theorem listAuthors_count_stripped_by_schema_witness :
    listAuthorsRoute sW6 = .ok (sW6.authors.map serializeAuthorItem) ∧
    (serializeAuthorItem aW6).map Prod.fst =
      ["id".data, "name".data, "createdAt".data, "updatedAt".data] :=
  ⟨(listAuthors_count_stripped_by_schema sW6 rfl).2.1,
   (listAuthors_count_stripped_by_schema sW6 rfl).2.2 aW6 (by decide)⟩

/-- With pairwise distinct author ids, `find?` on an id returns the member
carrying that id. -/
theorem find_author_eq_of_nodup (l : List Author) (a : Author)
    (hnd : (l.map Author.id).Nodup) (ha : a ∈ l) :
    l.find? (fun x => x.id == a.id) = some a := by
  induction l with
  | nil => cases ha
  | cons h t ih =>
    rcases List.mem_cons.mp ha with he | hat
    · subst he
      rw [List.find?_cons_of_pos _ (by simp)]
    · by_cases hid : (h.id == a.id) = true
      · exfalso
        have h1 : a.id ∈ t.map Author.id := List.mem_map_of_mem Author.id hat
        have h2 := (List.nodup_cons.mp hnd).1
        rw [show h.id = a.id from beq_iff_eq.mp hid] at h2
        exact h2 h1
      · have hfalse : (h.id == a.id) = false := by
          cases hcase : (h.id == a.id) with
          | true => exact absurd hcase hid
          | false => rfl
        rw [List.find?_cons]
        simp only [hfalse]
        exact ih (List.nodup_cons.mp hnd).2 hat

/-- C9: for every store with distinct author ids, every author returned by a
search has a name that case-insensitively contains the normalised query, and
every stored book referencing such an author satisfies the third disjunct of
the book filter and appears in the returned books. -/
theorem search_cross_collection (s : Store) (q : Str) (a : Author) (b : Book)
    (res : SearchResults) (k : Nat)
    (hnd : (s.authors.map Author.id).Nodup)
    (hs : SearchService.search s q = .ok (res, k))
    (ha : a ∈ res.authors) (hb : b ∈ s.books) (hab : b.authorId = a.id) :
    containsCI a.name (normalize q) = true ∧ b ∈ res.books := by
  by_cases he : (normalize q).isEmpty
  · exfalso
    have h0 : SearchService.search s q = .ok (⟨[], []⟩, 0) := by
      simp [SearchService.search, he]
    rw [h0] at hs
    simp only [Except.ok.injEq, Prod.mk.injEq] at hs
    obtain ⟨h2, _⟩ := hs
    rw [← h2] at ha
    cases ha
  · cases hfa : s.fault with
    | some f =>
      exfalso
      have h0 : SearchService.search s q = .error (.storageFault f) := by
        simp [SearchService.search, he, hfa]
      rw [h0] at hs
      exact Except.noConfusion hs
    | none =>
      have h0 : SearchService.search s q =
          .ok (⟨s.books.filter (bookMatches s (normalize q)),
                s.authors.filter (fun x => containsCI x.name (normalize q))⟩, 2) := by
        simp [SearchService.search, he, hfa]
      rw [h0] at hs
      simp only [Except.ok.injEq, Prod.mk.injEq] at hs
      obtain ⟨h2, _⟩ := hs
      subst h2
      have haf := List.mem_filter.mp ha
      refine ⟨haf.2, ?_⟩
      apply List.mem_filter.mpr
      refine ⟨hb, ?_⟩
      have hla : lookupAuthor s b.authorId = some a := by
        unfold lookupAuthor
        rw [hab]
        exact find_author_eq_of_nodup s.authors a hnd haf.1
      simp [bookMatches, hla, haf.2]

/-- Witness for C9: searching "ad" returns the author "ada" and with it the
book "dune", whose title does not contain the query. -/
theorem search_cross_collection_witness :
    containsCI aW9.name (normalize ("ad".data)) = true ∧ bW9 ∈ resW9.books :=
  search_cross_collection sW9 ("ad".data) aW9 bW9 resW9 2
    (by decide) (by rfl) (by decide) (by decide) rfl

end Moneturn
